import Mathlib

/-!
Shallow embedding of the `webmon` repository (a Python website health monitor)
and proofs about the claims of its specification.

The embedding translates the relevant Python source files:
  * `src/webmon/web_monitor.py`   (URL normalizer, CSV site loader, health-check loop)
  * `src/webmon/retry.py`         (retry decorator)
  * `src/webmon/database_connector_postgresql.py` (SQL query generators)
  * `src/webmon/website.py`, `src/webmon/healthcheck.py` (data model)
-/

namespace Webmon

/- ------------------------------------------------------------------
Section 1: a backtracking matcher embedding Python `re.search` for the
fixed pattern used by `WebMonitor.get_valid_url`:

    (?P<protocol>http.*://)?(?P<host>[^:/ ]+).?(?P<port>[0-9]*)/?(?P<path>.*)

The pattern only uses: single-character classes, literals, greedy star of
a character class, greedy optional character, capture groups, and a greedy
optional group.  The matcher below implements exactly Python's
leftmost-then-greedy backtracking order for these constructs.
`.` does not match a newline (no DOTALL flag in the source).
------------------------------------------------------------------ -/

inductive Pat : Type where
  | cls (p : Char → Bool)
  | lit (s : List Char)
  | starCls (p : Char → Bool)
  | optCls (p : Char → Bool)
  | cat (a b : Pat)
  | grp (n : Nat) (a : Pat)
  | opt (a : Pat)

/-- Captured groups: group number paired with the captured substring.
A group absent from the list did not participate in the match
(Python `m.group(n) is None`). -/
abbrev Caps := List (Nat × String)

/-- Return the first `some` produced by `f` over the list, in order. -/
def firstSome {β : Type} (f : List Char → Option β) : List (List Char) → Option β
  | [] => none
  | a :: as =>
    match f a with
    | some b => some b
    | none => firstSome f as

/-- All suffixes `cs.drop k` for `k = n, n-1, ..., 0` (longest drop first). -/
def dropsDesc (cs : List Char) : Nat → List (List Char)
  | 0 => [cs]
  | k + 1 => cs.drop (k + 1) :: dropsDesc cs k

/-- Candidate rests after a greedy star of the class `p`, longest
consumption first (Python's greedy `*` backtracking order). -/
def splitsDesc (p : Char → Bool) (cs : List Char) : List (List Char) :=
  dropsDesc cs (cs.takeWhile p).length

def listStartsWith : List Char → List Char → Bool
  | [], _ => true
  | _ :: _, [] => false
  | a :: as, b :: bs => a == b && listStartsWith as bs

/-- Backtracking matcher in continuation-passing style.  `mrun pat cs caps k`
tries to match `pat` against a prefix of `cs`, calling the continuation `k`
with the rest of the input and the extended captures; alternatives are tried
in Python's order (greedy / group-present first). -/
def mrun : Pat → List Char → Caps → (List Char → Caps → Option Caps) → Option Caps
  | .cls p, cs, caps, k =>
    match cs with
    | [] => none
    | c :: rest => if p c then k rest caps else none
  | .lit s, cs, caps, k =>
    if listStartsWith s cs then k (cs.drop s.length) caps else none
  | .starCls p, cs, caps, k => firstSome (fun rest => k rest caps) (splitsDesc p cs)
  | .optCls p, cs, caps, k =>
    match cs with
    | [] => k [] caps
    | c :: rest =>
      if p c then
        match k rest caps with
        | some r => some r
        | none => k cs caps
      else k cs caps
  | .cat a b, cs, caps, k => mrun a cs caps (fun cs2 caps2 => mrun b cs2 caps2 k)
  | .grp n a, cs, caps, k =>
    mrun a cs caps
      (fun cs2 caps2 => k cs2 ((n, String.mk (cs.take (cs.length - cs2.length))) :: caps2))
  | .opt a, cs, caps, k =>
    match mrun a cs caps k with
    | some r => some r
    | none => k cs caps

/-- Python `re.search`: try a match starting at position 0, then 1, ...
No anchor: a match may end before the end of the input. -/
def searchFrom (pat : Pat) : List Char → Option Caps
  | [] =>
    match mrun pat [] [] (fun _ caps => some caps) with
    | some caps => some caps
    | none => none
  | c :: rest =>
    match mrun pat (c :: rest) [] (fun _ caps => some caps) with
    | some caps => some caps
    | none => searchFrom pat rest

def reSearch (pat : Pat) (s : String) : Option Caps :=
  searchFrom pat s.data

/-- Python `m.group(n)`: `none` when the group did not participate. -/
def reGroup (caps : Caps) (n : Nat) : Option String :=
  (caps.find? (fun e => e.1 == n)).map (fun e => e.2)

/- ------------------------------------------------------------------
Section 2: the URL normalizer `WebMonitor.get_valid_url`
(web_monitor.py lines 118-144).
------------------------------------------------------------------ -/

/-- Character class `.` of the pattern: any character except a newline. -/
def isDotChar (c : Char) : Bool := c != '\n'

/-- Character class `[^:/ ]` for the host group. -/
def isHostChar (c : Char) : Bool := !(c == ':' || c == '/' || c == ' ')

/-- Subpattern `(?P<protocol>http.*://)` (group 1). -/
def patProto : Pat :=
  .grp 1 (.cat (.lit "http".data) (.cat (.starCls isDotChar) (.lit "://".data)))

/-- Subpattern `.?(?P<port>[0-9]*)/?(?P<path>.*)` (groups 3 and 4),
everything that follows the host. -/
def patTail : Pat :=
  .cat (.optCls isDotChar)
    (.cat (.grp 3 (.starCls Char.isDigit))
      (.cat (.optCls (fun c => c == '/'))
        (.grp 4 (.starCls isDotChar))))

/-- Subpattern `(?P<host>[^:/ ]+).?(?P<port>[0-9]*)/?(?P<path>.*)`;
`+` is encoded as one mandatory character followed by a greedy star. -/
def patHostTail : Pat :=
  .cat (.grp 2 (.cat (.cls isHostChar) (.starCls isHostChar))) patTail

/-- The source pattern
`(?P<protocol>http.*://)?(?P<host>[^:/ ]+).?(?P<port>[0-9]*)/?(?P<path>.*)`
with groups numbered protocol=1, host=2, port=3, path=4. -/
def urlPat : Pat :=
  .cat (.opt patProto) patHostTail

/-- Python `==` between a `str` and an `int` value: always `False`
(the source compares the captured port *string* with the integer `443`). -/
def pyEqStrInt (_s : String) (_n : Int) : Bool := false

/-- Python `str.rstrip('/')`: remove every trailing `/`. -/
def rstripSlash (s : String) : String :=
  String.mk ((s.data.reverse.dropWhile (fun c => c == '/')).reverse)

/-- Embedding of `WebMonitor.get_valid_url(url, no_naked_domain)`.
Returns `none` when the pattern does not match (in Python `m` is `None`
and `m.group(...)` raises `AttributeError`).  The host group is mandatory,
so it always participates in a successful match; `getD ""` on it is
therefore never exercised with a missing group. -/
def get_valid_url (url : String) (no_naked_domain : Bool) : Option String :=
  match reSearch urlPat url with
  | none => none
  | some caps =>
    let protocol0 : Option String := reGroup caps 1
    let host0 : String := (reGroup caps 2).getD ""
    let port0 : String := (reGroup caps 3).getD ""
    let path : String := (reGroup caps 4).getD ""
    let host : String :=
      if no_naked_domain && host0.data.count '.' < 2 then "www." ++ host0 else host0
    let pp : String × String :=
      if port0 = "" && protocol0 = none then
        ("https", "443")
      else if protocol0 = none && port0 ≠ "" then
        -- source line 134: `if port == 443:` compares a str with an int, always False
        (if pyEqStrInt port0 443 then "https" else "http", port0)
      else if protocol0 ≠ none && port0 = "" then
        (protocol0.getD "", if protocol0.getD "" = "https" then "443" else "80")
      else
        (protocol0.getD "", port0)
    some (rstripSlash (pp.1 ++ "://" ++ host ++ ":" ++ pp.2 ++ "/" ++ path))

/- ------------------------------------------------------------------
Section 3: the data model (website.py, healthcheck.py).
------------------------------------------------------------------ -/

/-- Enum `RegexMatchStatus` of healthcheck.py (FAIL = 0, OK = 1, NA = 2). -/
inductive RegexMatchStatus : Type where
  | FAIL
  | OK
  | NA
deriving DecidableEq, Repr

/-- Pydantic model `Website` of website.py. -/
structure Website : Type where
  website_id : Int
  url_uq : String
  interval : Int
  regex : String
deriving DecidableEq, Repr

/-- Pydantic model `Healthcheck` of healthcheck.py.  The two time fields
are rational numbers standing for the Python floats. -/
structure Healthcheck : Type where
  check_id : Int
  website_fk : Int
  request_timestamp : ℚ
  response_time : ℚ
  http_status_code : Int
  regex_match_status : RegexMatchStatus
  error_message : String
deriving DecidableEq, Repr

/- ------------------------------------------------------------------
Section 4: the CSV site loader `WebMonitor._read_sites_from_file`
(web_monitor.py lines 99-115).  The file is modelled after csv parsing:
a list of rows, each a list of column strings (a blank line parses to `[]`).
------------------------------------------------------------------ -/

/-- Python `repr` of a string, for strings without quotes or escapes
(the only shape relevant here: CSV header fields). -/
def pyReprStr (s : String) : String := "\x27" ++ s ++ "\x27"

/-- Python `str(row)` where `row` is a list of strings, e.g.
`str(["host", "interval"]) = "[\x27host\x27, \x27interval\x27]"`. -/
def pyStrOfRow (row : List String) : String :=
  "[" ++ String.intercalate ", " (row.map pyReprStr) ++ "]"

/-- Substring containment, as Python's `in` on strings. -/
def listContainsSub (sub : List Char) : List Char → Bool
  | [] => sub.isEmpty
  | c :: rest => listStartsWith sub (c :: rest) || listContainsSub sub rest

def strContainsSub (s sub : String) : Bool := listContainsSub sub.data s.data

/-- The source's `split_row` lambda (web_monitor.py line 103):
`(row[0], row[1], row[2]) if len(row)==3 else (row[0], row[1], '')`.
Returns `none` for the Python `IndexError` on rows with fewer than
2 columns. -/
def split_row : List String → Option (String × String × String)
  | [a, b, c] => some (a, b, c)
  | a :: b :: _ => some (a, b, "")
  | _ => none

/-- Fold a digit list into its value; `none` on a non-digit or empty list. -/
def digitsToNat : List Char → Option Nat
  | [] => none
  | cs => cs.foldl
      (fun acc c => match acc with
        | none => none
        | some n => if c.isDigit then some (n * 10 + (c.toNat - 48)) else none)
      (some 0)

/-- Python `int(s)` as used by pydantic to coerce the `interval` column to
the `int` field: an optional sign followed by digits (surrounding
whitespace and underscore separators, which Python also tolerates, do not
occur in the site files and are not modelled). -/
def pyToInt (s : String) : Option Int :=
  match s.data with
  | '-' :: rest => (digitsToNat rest).map (fun n => -(n : Int))
  | '+' :: rest => (digitsToNat rest).map (fun n => (n : Int))
  | cs => (digitsToNat cs).map (fun n => (n : Int))

/-- Errors that abort `_read_sites_from_file`. -/
inductive LoadError : Type where
  | indexError          -- a row with fewer than 2 columns
  | attributeError      -- `get_valid_url` found no match (`m` is `None`)
  | validationError     -- pydantic rejects a non-integer `interval` string
deriving DecidableEq, Repr

/-- One iteration of the loader's `for idx, row in enumerate(csv_reader)` body.
`idx` is the 0-based row index in the file (blank rows still advance it). -/
def loadRow (idx : Nat) (row : List String) : Except LoadError (List Website) :=
  if row = [] then Except.ok []          -- `if not row: continue` (skip blank lines)
  else if idx = 0 && strContainsSub (pyStrOfRow row) "host,interval" then
    Except.ok []                         -- header check, line 110
  else
    match split_row row with
    | none => Except.error LoadError.indexError
    | some (url, interval, regex) =>
      match get_valid_url url false with -- line 113: naked-domain magic disabled
      | none => Except.error LoadError.attributeError
      | some u =>
        match pyToInt interval with      -- pydantic coerces the interval string to int
        | none => Except.error LoadError.validationError
        | some n => Except.ok [Website.mk (-1) u n regex]

/-- Embedding of `_read_sites_from_file`, over the parsed CSV rows. -/
def read_sites_from_file (rows : List (List String)) : Except LoadError (List Website) :=
  (List.range rows.length).foldl
    (fun acc idx =>
      match acc with
      | Except.error e => Except.error e
      | Except.ok sites =>
        match loadRow idx (rows.getD idx []) with
        | Except.error e => Except.error e
        | Except.ok new => Except.ok (sites ++ new))
    (Except.ok [])

/- ------------------------------------------------------------------
Section 5: one iteration of the probe loop `_healthcheck_website`
(web_monitor.py lines 245-305), as a pure function of the outcome of
the HTTP request.
------------------------------------------------------------------ -/

/-- Outcome of `await session.request(...)`:
either a response (status code and body), or an `asyncio.TimeoutError`,
or any other exception; exceptions carry `str(exp.__class__)` and `str(exp)`. -/
inductive FetchOutcome : Type where
  | success (status : Int) (body : String)
  | timeoutError (cls msg : String)
  | otherError (cls msg : String)
deriving DecidableEq, Repr

/-- Python `round(x, 3)` on the rational model of the float. -/
def round3 (q : ℚ) : ℚ := (round (q * 1000) : ℚ) / 1000

/-- One loop iteration of `_healthcheck_website`, producing the `Healthcheck`
that the source then persists via `_db_insert_healthcheck_entry`.
`request_timestamp` and `response_time` are the wall-clock measurements.

Source line 270 executes `website.regex = False` (marked
`NOTE: for DEBUG only`), so the guard `if resp and website.regex:` on
line 271 is always falsy: lines 271-286 (the body read and regex match)
are unreachable and the `else` branch sets `match_status = RegexMatchStatus.NA`. -/
def healthcheckIteration (website : Website) (fetch : FetchOutcome)
    (request_timestamp response_time : ℚ) : Healthcheck :=
  let sc_err : Int × String :=
    match fetch with
    | .success st _ => (st, "")
    | .timeoutError cls msg => (598, "[" ++ cls ++ "] " ++ msg)
    | .otherError cls msg => (555, "[" ++ cls ++ "] " ++ msg)
  let match_status : RegexMatchStatus := RegexMatchStatus.NA
  let error_message : String := sc_err.2.take 250   -- line 296: error_message[:250]
  { check_id := -1
    website_fk := website.website_id
    request_timestamp := round3 request_timestamp
    response_time := round3 response_time
    http_status_code := sc_err.1
    regex_match_status := match_status
    error_message := error_message }

/- ------------------------------------------------------------------
Section 6: the check-count loop of `_healthcheck_website`
(web_monitor.py lines 243-244):

    while num_checks != 0:
        num_checks -= 1
        ... one iteration ...

`healthcheckLoop fuel n count` runs up to `fuel` further iterations with
current counter `n`, having already performed `count`; it returns
`some total` when the loop exits (the task reaches FINISHED) within the
fuel, and `none` when `fuel` iterations were not enough. -/
def healthcheckLoop (fuel : Nat) (n : Int) (count : Nat) : Option Nat :=
  if n = 0 then some count
  else
    match fuel with
    | 0 => none
    | f + 1 => healthcheckLoop f (n - 1) (count + 1)

/- ------------------------------------------------------------------
Section 7: the retry decorator (retry.py).
------------------------------------------------------------------ -/

/-- Result of running the wrapped coroutine to completion. -/
inductive RetryResult (α : Type) : Type where
  | success (value : α)
  | tooManyTries                 -- `TooManyTriesException` after the loop
  | typeError                    -- Python `TypeError`: `current_delay > None`
deriving DecidableEq, Repr

/-- Trace of one run of the wrapper: final result, number of calls of the
wrapped function, and the list of delays passed to `asyncio.sleep`. -/
structure RetryTrace (α : Type) : Type where
  result : RetryResult α
  attempts : Nat
  sleeps : List ℚ
deriving DecidableEq, Repr

/-- The `for attempt in range(tries)` loop of `retry.wrapper` (retry.py
lines 41-57).  `op i` is the outcome of the `i`-th call of the wrapped
function (`some v` returns `v`, `none` raises).  On an exception the source
first multiplies `current_delay` by `backoff`, then compares it against
`max_interval` — which raises `TypeError` when `max_interval` is `None` —
caps it, sleeps, and iterates; after the loop it raises
`TooManyTriesException`. -/
def retryLoop {α : Type} (op : Nat → Option α) (backoff : ℚ) (max_interval : Option ℚ) :
    Nat → Nat → ℚ → RetryTrace α
  | 0, attempt, _ => ⟨RetryResult.tooManyTries, attempt, []⟩
  | remaining + 1, attempt, current_delay =>
    match op attempt with
    | some v => ⟨RetryResult.success v, attempt + 1, []⟩
    | none =>
      let cd := current_delay * backoff
      match max_interval with
      | none => ⟨RetryResult.typeError, attempt + 1, []⟩
      | some m =>
        let cd2 := if cd > m then m else cd
        let t := retryLoop op backoff max_interval remaining (attempt + 1) cd2
        ⟨t.result, t.attempts, cd2 :: t.sleeps⟩

/-- Embedding of a call of a function wrapped by
`@retry(tries=..., delay=..., backoff=..., max_interval=...)`. -/
def retryRun {α : Type} (op : Nat → Option α) (tries : Nat) (delay backoff : ℚ)
    (max_interval : Option ℚ) : RetryTrace α :=
  retryLoop op backoff max_interval tries 0 delay

/-- An operation that fails on the first `k` attempts and then succeeds. -/
def failThenSucceed {α : Type} (k : Nat) (v : α) : Nat → Option α :=
  fun i => if i < k then none else some v

/-- An operation that fails on every attempt. -/
def alwaysFail (α : Type) : Nat → Option α := fun _ => none

/- ------------------------------------------------------------------
Section 8: the SQL query generators of database_connector_postgresql.py.
------------------------------------------------------------------ -/

/-- A value of a pydantic model field after `model_dump` and enum-to-int
conversion (lines 207-209). -/
inductive PyVal : Type where
  | pint (n : Int)
  | pfloat (q : ℚ)
  | pstr (s : String)
deriving DecidableEq, Repr

/-- Python `str.endswith(suffix)`. -/
def pyEndsWith (s suffix : String) : Bool :=
  s.data.drop (s.data.length - suffix.data.length) == suffix.data

/-- Name hint of lines 164 and 212: the field is the auto-generated primary
key when its name is `id` or ends in `_id`. -/
def isIdHint (key : String) : Bool := key == "id" || pyEndsWith key "_id"

/-- Name hint of lines 167 and 214: the field is unique when its name
ends in `_uq`. -/
def isUqHint (key : String) : Bool := pyEndsWith key "_uq"

/-- The column-type mapping of `get_query_create_table` (lines 146-163):
ints map to INT, floats to FLOAT, enums to INT, strings to TEXT. -/
inductive PyFieldType : Type where
  | pyint
  | pyfloat
  | pyenum
  | pystr
deriving DecidableEq, Repr

def sqlTypeOf : PyFieldType → String
  | .pyint => "INT"
  | .pyfloat => "FLOAT"
  | .pyenum => "INT"
  | .pystr => "TEXT"

/-- Embedding of `get_query_create_table(table_name, obj, use_name_hints)`
(lines 134-172); `fields` lists the model's fields in declaration order. -/
def get_query_create_table (table_name : String) (fields : List (String × PyFieldType))
    (use_name_hints : Bool) : String :=
  let step := fun (acc : String × String) (kv : String × PyFieldType) =>
    let value := sqlTypeOf kv.2
    if use_name_hints && isIdHint kv.1 then
      (acc.1 ++ kv.1 ++ " SERIAL,\n", ",\nPRIMARY KEY (" ++ kv.1 ++ ")\n")
    else if use_name_hints && isUqHint kv.1 then
      (acc.1 ++ kv.1 ++ " " ++ value ++ " UNIQUE,\n", acc.2)
    else
      (acc.1 ++ kv.1 ++ " " ++ value ++ ",\n", acc.2)
  let qp := fields.foldl step ("CREATE TABLE IF NOT EXISTS " ++ table_name ++ " (\n", "")
  (qp.1.dropRight 2) ++ qp.2 ++ ");"

/-- The `columns` list built by the field loop of
`get_query_insert_many_into_table` (lines 211-222): every field except the
id-hinted ones, in order. -/
def insertColumns (use_name_hints : Bool) (data : List (String × PyVal)) : List String :=
  data.foldl
    (fun cols kv =>
      if use_name_hints && isIdHint kv.1 then cols
      else cols ++ [kv.1])
    []

/-- The `columns_conflict` list built by the same loop: the uq-hinted fields
that survive the id check. -/
def insertConflictColumns (use_name_hints : Bool) (data : List (String × PyVal)) :
    List String :=
  data.foldl
    (fun cols kv =>
      if use_name_hints && isIdHint kv.1 then cols
      else if use_name_hints && isUqHint kv.1 then cols ++ [kv.1]
      else cols)
    []

/-- `$1, $2, ...` placeholders, one per retained column. -/
def insertPlaceholders (n : Nat) : List String :=
  (List.range n).map (fun i => "$" ++ toString (i + 1))

/-- Embedding of the query string of
`get_query_insert_many_into_table(table_name, objs, use_name_hints)`
(lines 186-232), for a homogeneous object list with field data `data`
(the source rebuilds `columns` for each object and uses the last one;
for objects of one pydantic model all iterations agree). -/
def get_query_insert_many_into_table (table_name : String)
    (data : List (String × PyVal)) (use_name_hints : Bool) : String :=
  let columns := insertColumns use_name_hints data
  let columns_conflict := insertConflictColumns use_name_hints data
  let columns_str := String.intercalate ", " columns
  let placeholders_str := String.intercalate ", " (insertPlaceholders columns.length)
  let conflict_expression :=
    if columns_conflict ≠ [] then
      "ON CONFLICT (" ++ String.intercalate ", " columns_conflict ++ ") DO NOTHING"
    else ""
  "INSERT INTO " ++ table_name ++ " (" ++ columns_str ++ ") VALUES (" ++
    placeholders_str ++ ") " ++ conflict_expression ++ ";"

/-- The field list of the `Website` model in declaration order, with the
field values of a site `w`, as produced by `model_dump`. -/
def websiteDump (w : Website) : List (String × PyVal) :=
  [("website_id", PyVal.pint w.website_id),
   ("url_uq", PyVal.pstr w.url_uq),
   ("interval", PyVal.pint w.interval),
   ("regex", PyVal.pstr w.regex)]

/-- The field list of the `Website` model with its python field types. -/
def websiteFieldTypes : List (String × PyFieldType) :=
  [("website_id", PyFieldType.pyint),
   ("url_uq", PyFieldType.pystr),
   ("interval", PyFieldType.pyint),
   ("regex", PyFieldType.pystr)]

/- ------------------------------------------------------------------
Theorems.
------------------------------------------------------------------ -/

/-- Auxiliary: the loop of `_healthcheck_website` run with a non-negative
counter `k` finishes after exactly `k` iterations when given at least `k`
fuel. -/
theorem healthcheckLoop_nat_le :
    ∀ (k : Nat), ∀ (fuel count : Nat), k ≤ fuel →
      healthcheckLoop fuel (k : Int) count = some (count + k) := by
  intro k
  induction k with
  | zero =>
    intro fuel count _
    rw [healthcheckLoop.eq_def, if_pos (by norm_num)]
    norm_num
  | succ k ih =>
    intro fuel count hle
    cases fuel with
    | zero => omega
    | succ f =>
      have hne : ((k + 1 : Nat) : Int) ≠ 0 := by omega
      rw [healthcheckLoop.eq_def, if_neg hne]
      have hcast : ((k + 1 : Nat) : Int) - 1 = (k : Int) := by omega
      rw [hcast]
      show healthcheckLoop f (k : Int) (count + 1) = some (count + (k + 1))
      rw [ih f (count + 1) (by omega)]
      congr 1
      omega

/-- Auxiliary: with fewer than `k` units of fuel the loop with counter `k`
has not yet finished. -/
theorem healthcheckLoop_nat_gt :
    ∀ (fuel : Nat), ∀ (k count : Nat), fuel < k →
      healthcheckLoop fuel (k : Int) count = none := by
  intro fuel
  induction fuel with
  | zero =>
    intro k count hlt
    have hne : ((k : Nat) : Int) ≠ 0 := by omega
    rw [healthcheckLoop.eq_def, if_neg hne]
  | succ f ih =>
    intro k count hlt
    have hne : ((k : Nat) : Int) ≠ 0 := by omega
    rw [healthcheckLoop.eq_def, if_neg hne]
    have hcast : ((k : Nat) : Int) - 1 = ((k - 1 : Nat) : Int) := by omega
    rw [hcast]
    show healthcheckLoop f ((k - 1 : Nat) : Int) (count + 1) = none
    exact ih (k - 1) (count + 1) (by omega)

/-- Auxiliary: with a negative counter the loop never finishes, whatever
the fuel. -/
theorem healthcheckLoop_neg :
    ∀ (fuel : Nat), ∀ (n : Int), n < 0 → ∀ (count : Nat),
      healthcheckLoop fuel n count = none := by
  intro fuel
  induction fuel with
  | zero =>
    intro n hn count
    rw [healthcheckLoop.eq_def, if_neg (by omega)]
  | succ f ih =>
    intro n hn count
    rw [healthcheckLoop.eq_def, if_neg (by omega)]
    show healthcheckLoop f (n - 1) (count + 1) = none
    exact ih (n - 1) (by omega) (count + 1)

/-- C6: a site-task with check budget `N ≥ 1` performs exactly `N` check
iterations and then reaches FINISHED (the loop needs exactly `N` iterations:
it finishes with any fuel `≥ N` after `N` iterations, and has not finished
with fuel `< N`); with the sentinel budget `-1` the task never reaches
FINISHED, however many iterations are run. -/
theorem healthcheck_loop_budget :
    (∀ N : Int, 1 ≤ N →
      (∀ fuel count : Nat, N.toNat ≤ fuel →
        healthcheckLoop fuel N count = some (count + N.toNat)) ∧
      (∀ fuel count : Nat, fuel < N.toNat → healthcheckLoop fuel N count = none)) ∧
    (∀ fuel count : Nat, healthcheckLoop fuel (-1) count = none) := by
  constructor
  · intro N hN
    have hcast : ((N.toNat : Nat) : Int) = N := Int.toNat_of_nonneg (by omega)
    constructor
    · intro fuel count hle
      have := healthcheckLoop_nat_le N.toNat fuel count hle
      rwa [hcast] at this
    · intro fuel count hlt
      have := healthcheckLoop_nat_gt fuel N.toNat count hlt
      rwa [hcast] at this
  · intro fuel count
    exact healthcheckLoop_neg fuel (-1) (by omega) count

/-- Witness for C6 at budget 3 (and the sentinel -1). -/
theorem healthcheck_loop_budget_witness :
    healthcheckLoop 3 3 0 = some 3 ∧ healthcheckLoop 2 3 0 = none ∧
    healthcheckLoop 9 (-1) 0 = none := by
  refine ⟨?_, ?_, ?_⟩
  · simpa using (healthcheck_loop_budget.1 3 (by norm_num)).1 3 0 (by norm_num)
  · simpa using (healthcheck_loop_budget.1 3 (by norm_num)).2 2 0 (by norm_num)
  · exact healthcheck_loop_budget.2 9 0

/-- C1: the claim fails on the code.  Because of the debug override
`website.regex = False` (web_monitor.py line 270, marked
`NOTE: for DEBUG only`), the persisted match status is `NA`
(NOT_APPLICABLE) for every probe — in particular for a probe of a site
with a non-empty pattern that occurs in the response body, where the claim
requires MATCHED.  The second conjunct evaluates the failing input. -/
theorem healthcheck_regex_match_status_always_na :
    (∀ (website : Website) (fetch : FetchOutcome) (ts rt : ℚ),
      (healthcheckIteration website fetch ts rt).regex_match_status = RegexMatchStatus.NA) ∧
    (healthcheckIteration (Website.mk 4 "https://foo.com:443" 5 "welcome")
        (FetchOutcome.success 200 "welcome home") 0 0).regex_match_status
      = RegexMatchStatus.NA := by
  exact ⟨fun _ _ _ _ => rfl, rfl⟩

/-- C5: transport-level failures still produce the `Healthcheck` record
with the sentinel status codes (598 for `asyncio.TimeoutError`, 555 for any
other exception) and the error message built from the exception class and
message, truncated to the 250-character cap applied before persisting. -/
theorem healthcheck_transport_failure_sentinels :
    ∀ (website : Website) (cls msg : String) (ts rt : ℚ),
      (healthcheckIteration website (FetchOutcome.timeoutError cls msg) ts rt).http_status_code
          = 598 ∧
      (healthcheckIteration website (FetchOutcome.timeoutError cls msg) ts rt).error_message
          = ("[" ++ cls ++ "] " ++ msg).take 250 ∧
      (healthcheckIteration website (FetchOutcome.otherError cls msg) ts rt).http_status_code
          = 555 ∧
      (healthcheckIteration website (FetchOutcome.otherError cls msg) ts rt).error_message
          = ("[" ++ cls ++ "] " ++ msg).take 250 ∧
      (healthcheckIteration website (FetchOutcome.timeoutError cls msg) ts rt).website_fk
          = website.website_id := by
  intro website cls msg ts rt
  refine ⟨rfl, ?_, rfl, ?_, rfl⟩ <;> simp only [healthcheckIteration]

/-- C3: the claim fails on the code.  For an input with a port and no
protocol the source compares the captured port *string* with the integer
`443` (web_monitor.py line 134), which in Python is always `False`, so the
normalizer picks `http` even for port 443.  The second conjunct checks the
claim's own example, which does hold. -/
theorem get_valid_url_port_without_protocol_yields_http :
    get_valid_url "foo.com:443" false = some "http://foo.com:443" ∧
    get_valid_url "foo.com:8080" false = some "http://foo.com:8080" := by
  exact ⟨by decide, by decide⟩

/-- C7: the claim fails on the code.  The pattern captures the protocol
*including* the `://` separator, and the output f-string appends `://`
again, so for an input that carries a protocol the output is not of the
form `{scheme}://{host}:{port}/{path}`: `https://foo.com` normalizes to
the malformed `https://://foo.com:80` (the dead string comparison
`protocol == 'https'` on line 139 also sends every protocol-carrying
input to port 80).  The remaining conjuncts check the claim's shape on
protocol-free inputs, where it does hold. -/
theorem get_valid_url_protocol_input_malformed :
    get_valid_url "https://foo.com" false = some "https://://foo.com:80" ∧
    get_valid_url "foo.com" false = some "https://foo.com:443" ∧
    get_valid_url "foo.io/health" false = some "https://foo.io:443/health" := by
  exact ⟨by decide, by decide, by decide⟩

set_option maxRecDepth 10000 in
/-- C4: the claim fails on the code.  The header check
`f'host{delimiter}interval' in str(row)` (web_monitor.py line 110) tests
the *Python repr of the parsed row list* for the substring
`"host,interval"`; a genuine header line `host,interval,regex` parses to
`['host', 'interval', 'regex']`, whose repr does not contain that
substring, so the header is not skipped: the loader treats it as a site
row and pydantic fails coercing `'interval'` to int.  The other conjuncts
show the parts of the claim that do hold: blank rows are skipped, rows get
id -1, a normalized URL, and an empty pattern when only 2 columns. -/
theorem read_sites_header_row_not_skipped :
    strContainsSub (pyStrOfRow ["host", "interval", "regex"]) "host,interval" = false ∧
    read_sites_from_file [["host", "interval", "regex"], ["foo.com", "60", "ok"]]
        = Except.error LoadError.validationError ∧
    read_sites_from_file [["foo.com", "60", "ok"], [], ["bar.io", "30"]]
        = Except.ok [Website.mk (-1) "https://foo.com:443" 60 "ok",
                     Website.mk (-1) "https://bar.io:443" 30 ""] := by
  exact ⟨rfl, rfl, rfl⟩

/-- Auxiliary for C10: with `max_interval = None` the wrapper never sleeps
(the first exception reaches the `current_delay > max_interval` comparison,
which raises `TypeError`, before any `asyncio.sleep`). -/
theorem retryLoop_none_no_sleeps {α : Type} (op : Nat → Option α) (backoff : ℚ) :
    ∀ (r a : Nat) (cd : ℚ), (retryLoop op backoff none r a cd).sleeps = [] := by
  intro r a cd
  match r with
  | 0 => rfl
  | r + 1 =>
    rw [retryLoop]
    cases op a <;> rfl

/-- C10: with the decorator's default parameters (`tries=3, delay=2,
backoff=1, max_interval=None`), an operation that raises on the first
attempt makes the wrapper itself fail with `TypeError` (comparing the
numeric delay with `None`) after exactly one call and before any retry
sleep; more generally, no sleep ever happens while `max_interval` is
`None`, so retries only occur when it is supplied. -/
theorem retry_default_max_interval_type_error {α : Type} (op : Nat → Option α)
    (h : op 0 = none) :
    retryRun op 3 2 1 none = ⟨RetryResult.typeError, 1, []⟩ ∧
    (∀ (op2 : Nat → Option α) (tries : Nat) (delay backoff : ℚ),
      (retryRun op2 tries delay backoff none).sleeps = []) := by
  constructor
  · rw [retryRun, retryLoop, h]
  · intro op2 tries delay backoff
    exact retryLoop_none_no_sleeps op2 backoff tries 0 delay

/-- Witness for C10 at the always-failing operation. -/
theorem retry_default_max_interval_type_error_witness :
    retryRun (alwaysFail Nat) 3 2 1 none = ⟨RetryResult.typeError, 1, []⟩ :=
  (retry_default_max_interval_type_error (alwaysFail Nat) rfl).1

/-- Auxiliary for C9: a field name ending in `_uq` is never id-hinted
(it is not the name `id` and does not end in `_id`). -/
theorem uqHint_not_idHint (s : String) (h : isUqHint s = true) : isIdHint s = false := by
  unfold isUqHint pyEndsWith at h
  cases hid : (s == "id") with
  | true =>
    exfalso
    have hs : s = "id" := eq_of_beq hid
    subst hs
    exact absurd h (by decide)
  | false =>
    cases hend : pyEndsWith s "_id" with
    | true =>
      exfalso
      unfold pyEndsWith at hend
      have e1 : s.data.drop (s.data.length - ("_uq".data).length) = "_uq".data := eq_of_beq h
      have e2 : s.data.drop (s.data.length - ("_id".data).length) = "_id".data := eq_of_beq hend
      have hlen : ("_uq".data).length = ("_id".data).length := by decide
      rw [hlen] at e1
      have hcontra : ("_uq".data : List Char) = "_id".data := e1 ▸ e2
      exact absurd hcontra (by decide)
    | false => simp [isIdHint, hid, hend]

/-- Auxiliary for C9: the `columns` list of the insert-query generator is
exactly the non-id-hinted field names, in order. -/
theorem insertColumns_true_eq (data : List (String × PyVal)) :
    insertColumns true data = (data.filter (fun kv => !(isIdHint kv.1))).map Prod.fst := by
  have aux : ∀ (l : List (String × PyVal)) (acc : List String),
      l.foldl (fun cols kv => if isIdHint kv.1 then cols else cols ++ [kv.1]) acc
        = acc ++ (l.filter (fun kv => !(isIdHint kv.1))).map Prod.fst := by
    intro l
    induction l with
    | nil => intro acc; simp
    | cons kv rest ih =>
      intro acc
      cases hid : isIdHint kv.1 with
      | true => simp [hid, ih, List.filter_cons]
      | false => simp [hid, ih, List.filter_cons]
  have hfun : insertColumns true data
      = data.foldl (fun cols kv => if isIdHint kv.1 then cols else cols ++ [kv.1]) [] := by
    simp only [insertColumns, Bool.true_and]
  rw [hfun]
  simpa using aux data []

/-- Auxiliary for C9: the `columns_conflict` list of the insert-query
generator is exactly the uq-hinted field names, in order. -/
theorem insertConflictColumns_true_eq (data : List (String × PyVal)) :
    insertConflictColumns true data = (data.filter (fun kv => isUqHint kv.1)).map Prod.fst := by
  have aux : ∀ (l : List (String × PyVal)) (acc : List String),
      l.foldl
        (fun cols kv =>
          if isIdHint kv.1 then cols
          else if isUqHint kv.1 then cols ++ [kv.1]
          else cols) acc
        = acc ++ (l.filter (fun kv => !(isIdHint kv.1) && isUqHint kv.1)).map Prod.fst := by
    intro l
    induction l with
    | nil => intro acc; simp
    | cons kv rest ih =>
      intro acc
      cases hid : isIdHint kv.1 with
      | true => simp [hid, ih, List.filter_cons]
      | false =>
        cases huq : isUqHint kv.1 with
        | true => simp [hid, huq, ih, List.filter_cons]
        | false => simp [hid, huq, ih, List.filter_cons]
  have hfil : (data.filter (fun kv => !(isIdHint kv.1) && isUqHint kv.1))
      = data.filter (fun kv => isUqHint kv.1) := by
    apply List.filter_congr
    intro kv _
    cases huq : isUqHint kv.1 with
    | true => simp [uqHint_not_idHint kv.1 huq]
    | false => simp
  calc insertConflictColumns true data
      = data.foldl
          (fun cols kv =>
            if isIdHint kv.1 then cols
            else if isUqHint kv.1 then cols ++ [kv.1]
            else cols) [] := by
          simp only [insertConflictColumns, Bool.true_and]
    _ = (data.filter (fun kv => !(isIdHint kv.1) && isUqHint kv.1)).map Prod.fst := by
          simpa using aux data []
    _ = (data.filter (fun kv => isUqHint kv.1)).map Prod.fst := by rw [hfil]

set_option maxRecDepth 4000 in
/-- C9: the generated insert statement excludes every id-suffixed field and
carries an `ON CONFLICT ... DO NOTHING` clause on exactly the fields ending
in `_uq`, which the generated create-table statement declares UNIQUE; for
the `Website` model this yields an insert keyed on `url_uq` (so re-inserting
a URL is a no-op) and a table with `url_uq TEXT UNIQUE`. -/
theorem insert_query_upsert_shape :
    (∀ data : List (String × PyVal),
      insertColumns true data = (data.filter (fun kv => !(isIdHint kv.1))).map Prod.fst) ∧
    (∀ data : List (String × PyVal),
      insertConflictColumns true data
        = (data.filter (fun kv => isUqHint kv.1)).map Prod.fst) ∧
    get_query_insert_many_into_table "website"
        (websiteDump (Website.mk (-1) "https://foo.com:443" 60 "")) true
        = "INSERT INTO website (url_uq, interval, regex) VALUES ($1, $2, $3) ON CONFLICT (url_uq) DO NOTHING;" ∧
    get_query_create_table "website" websiteFieldTypes true
      = "CREATE TABLE IF NOT EXISTS website (\nwebsite_id SERIAL,\nurl_uq TEXT UNIQUE,\ninterval INT,\nregex TEXT,\nPRIMARY KEY (website_id)\n);" := by
  exact ⟨insertColumns_true_eq, insertConflictColumns_true_eq, rfl, rfl⟩

/-- Auxiliary for C2: running the retry loop against an operation that
fails on attempts `0..k-1` and succeeds on attempt `k` yields the success
value after exactly `k + 1` calls, provided `k` falls inside the remaining
budget. -/
theorem retryLoop_failThenSucceed {α : Type} (v : α) (b M : ℚ) (k : Nat) :
    ∀ (r a : Nat) (cd : ℚ), a ≤ k → k < a + r →
      (retryLoop (failThenSucceed k v) b (some M) r a cd).result = RetryResult.success v ∧
      (retryLoop (failThenSucceed k v) b (some M) r a cd).attempts = k + 1 := by
  intro r
  induction r with
  | zero => intro a cd hak hlt; omega
  | succ r ih =>
    intro a cd hak hlt
    by_cases hlt2 : a < k
    · have hop : failThenSucceed k v a = none := by simp [failThenSucceed, hlt2]
      simp only [retryLoop, hop]
      exact ih (a + 1) _ (by omega) (by omega)
    · have hae : a = k := by omega
      have hop : failThenSucceed k v a = some v := by simp [failThenSucceed, hlt2]
      simp only [retryLoop, hop]
      exact ⟨by trivial, by omega⟩

/-- Auxiliary for C2: against an always-failing operation the retry loop
exhausts its budget, performing one call per unit of budget. -/
theorem retryLoop_alwaysFail {α : Type} (b M : ℚ) :
    ∀ (r a : Nat) (cd : ℚ),
      (retryLoop (alwaysFail α) b (some M) r a cd).result = RetryResult.tooManyTries ∧
      (retryLoop (alwaysFail α) b (some M) r a cd).attempts = a + r := by
  intro r
  induction r with
  | zero => intro a cd; exact ⟨rfl, rfl⟩
  | succ r ih =>
    intro a cd
    simp only [retryLoop, alwaysFail]
    refine ⟨(ih (a + 1) _).1, ?_⟩
    rw [(ih (a + 1) _).2]
    omega

/-- Auxiliary for C2: the delays slept by the always-failing run are
non-negative, capped at `max_interval`, and monotonically non-decreasing
(for a backoff factor of at least 1). -/
theorem retryLoop_alwaysFail_sleeps {α : Type} (b M : ℚ) (hb : 1 ≤ b) (hM : 0 ≤ M) :
    ∀ (r a : Nat) (cd : ℚ), 0 ≤ cd →
      (∀ s ∈ (retryLoop (alwaysFail α) b (some M) r a cd).sleeps, 0 ≤ s ∧ s ≤ M) ∧
      List.Chain' (· ≤ ·) ((retryLoop (alwaysFail α) b (some M) r a cd).sleeps) ∧
      (∀ x, ((retryLoop (alwaysFail α) b (some M) r a cd).sleeps).head? = some x →
        (cd ≤ M → cd ≤ x)) := by
  intro r
  induction r with
  | zero =>
    intro a cd _
    simp [retryLoop]
  | succ r ih =>
    intro a cd hcd
    have hbpos : (0 : ℚ) ≤ b := le_trans zero_le_one hb
    have hcdb : cd ≤ cd * b := le_mul_of_one_le_right hcd hb
    have hc2 : (0 : ℚ) ≤ (if cd * b > M then M else cd * b) := by
      split
      · exact hM
      · exact le_trans hcd hcdb
    have hc2M : (if cd * b > M then M else cd * b) ≤ M := by
      split
      · exact le_refl M
      · linarith [not_lt.mp (by assumption : ¬ cd * b > M)]
    obtain ⟨ihb, ihc, ihh⟩ := ih (a + 1) (if cd * b > M then M else cd * b) hc2
    have hsl : (retryLoop (alwaysFail α) b (some M) (r + 1) a cd).sleeps
        = (if cd * b > M then M else cd * b)
          :: (retryLoop (alwaysFail α) b (some M) r (a + 1)
                (if cd * b > M then M else cd * b)).sleeps := by
      simp only [retryLoop, alwaysFail]
    refine ⟨?_, ?_, ?_⟩
    · intro s hs
      rw [hsl] at hs
      rcases List.mem_cons.mp hs with hs1 | hs2
      · subst hs1; exact ⟨hc2, hc2M⟩
      · exact ihb s hs2
    · rw [hsl]
      rw [List.chain'_cons']
      refine ⟨?_, ihc⟩
      intro y hy
      have hy2 := ihh y hy
      exact hy2 hc2M
    · intro x hx
      rw [hsl] at hx
      simp only [List.head?_cons, Option.some_inj] at hx
      intro hcdM
      subst hx
      split
      · exact hcdM
      · exact hcdb

/-- C2: a retry-wrapped operation (with `tries`, `delay`, `backoff` and a
configured `maxInterval` cap) that fails exactly `k < tries` times and then
succeeds returns the success value after exactly `k + 1` attempts; an
operation that always fails raises `TooManyTriesException` (the spec's
`RetriesExhaustedError`) after exactly `tries` attempts, and the delays
slept are monotonically non-decreasing and capped at `maxInterval`
(for `delay ≥ 0`, `backoff ≥ 1`, `maxInterval ≥ 0`). -/
theorem retry_attempt_counts_and_delays {α : Type} (tries k : Nat)
    (delay backoff M : ℚ) (v : α)
    (hk : k < tries) (hd : 0 ≤ delay) (hb : 1 ≤ backoff) (hM : 0 ≤ M) :
    (retryRun (failThenSucceed k v) tries delay backoff (some M)).result
        = RetryResult.success v ∧
    (retryRun (failThenSucceed k v) tries delay backoff (some M)).attempts = k + 1 ∧
    (retryRun (alwaysFail α) tries delay backoff (some M)).result
        = RetryResult.tooManyTries ∧
    (retryRun (alwaysFail α) tries delay backoff (some M)).attempts = tries ∧
    List.Chain' (· ≤ ·) ((retryRun (alwaysFail α) tries delay backoff (some M)).sleeps) ∧
    (∀ s ∈ (retryRun (alwaysFail α) tries delay backoff (some M)).sleeps, s ≤ M) := by
  have h1 := retryLoop_failThenSucceed v backoff M k tries 0 delay (by omega) (by omega)
  have h2 := retryLoop_alwaysFail (α := α) backoff M tries 0 delay
  have h3 := retryLoop_alwaysFail_sleeps (α := α) backoff M hb hM tries 0 delay hd
  refine ⟨h1.1, h1.2, h2.1, by simpa using h2.2, h3.2.1, fun s hs => (h3.1 s hs).2⟩

/-- Witness for C2 at `tries = 5`, `k = 2`, `delay = 30`, `backoff = 2`,
`maxInterval = 120` (the configuration the repository actually uses on its
storage operations). -/
theorem retry_attempt_counts_and_delays_witness :
    (retryRun (failThenSucceed 2 (7 : Nat)) 5 30 2 (some 120)).attempts = 3 ∧
    (retryRun (alwaysFail Nat) 5 30 2 (some 120)).attempts = 5 ∧
    List.Chain' (· ≤ ·) ((retryRun (alwaysFail Nat) 5 30 2 (some 120)).sleeps) := by
  have h := retry_attempt_counts_and_delays (α := Nat) 5 2 30 2 120 7
    (by norm_num) (by norm_num) (by norm_num) (by norm_num)
  exact ⟨by simpa using h.2.1, h.2.2.2.1, h.2.2.2.2.1⟩

/-- Auxiliary for C8: `firstSome` succeeds on a nonempty candidate list
whose entries all succeed. -/
theorem firstSome_isSome {β : Type} (f : List Char → Option β)
    (l : List (List Char)) (hne : l ≠ []) (h : ∀ x ∈ l, (f x).isSome) :
    (firstSome f l).isSome := by
  cases l with
  | nil => exact absurd rfl hne
  | cons a as =>
    have ha := h a (by simp)
    cases hfa : f a with
    | some bv => simp [firstSome, hfa]
    | none => rw [hfa] at ha; simp at ha

/-- Auxiliary for C8: the greedy-star candidate list is never empty
(zero consumption is always a candidate). -/
theorem dropsDesc_ne_nil (cs : List Char) (n : Nat) : dropsDesc cs n ≠ [] := by
  cases n <;> simp [dropsDesc]

/-- Auxiliary for C8: a greedy star always lets an always-succeeding
continuation through. -/
theorem mrun_starCls_isSome (p : Char → Bool) (cs : List Char) (caps : Caps)
    (k : List Char → Caps → Option Caps) (hk : ∀ rest, (k rest caps).isSome) :
    (mrun (.starCls p) cs caps k).isSome := by
  have hne : splitsDesc p cs ≠ [] := by
    unfold splitsDesc
    exact dropsDesc_ne_nil _ _
  simp only [mrun]
  exact firstSome_isSome _ _ hne (fun x _ => hk x)

/-- Auxiliary for C8: a greedy optional character always lets an
always-succeeding continuation through. -/
theorem mrun_optCls_isSome (p : Char → Bool) (cs : List Char) (caps : Caps)
    (k : List Char → Caps → Option Caps) (hk : ∀ rest, (k rest caps).isSome) :
    (mrun (.optCls p) cs caps k).isSome := by
  cases cs with
  | nil => simpa [mrun] using hk []
  | cons c rest =>
    simp only [mrun]
    by_cases hpc : p c = true
    · rw [if_pos hpc]
      cases hkr : k rest caps with
      | some r => simp
      | none => have hx := hk rest; rw [hkr] at hx; simp at hx
    · rw [if_neg hpc]
      exact hk _

/-- Auxiliary for C8: a captured greedy star always lets an
always-succeeding continuation through. -/
theorem mrun_grpStar_isSome (n : Nat) (p : Char → Bool) (cs : List Char)
    (caps : Caps) (k : List Char → Caps → Option Caps)
    (hk : ∀ cs2 caps2, (k cs2 caps2).isSome) :
    (mrun (.grp n (.starCls p)) cs caps k).isSome := by
  have hne : splitsDesc p cs ≠ [] := by
    unfold splitsDesc
    exact dropsDesc_ne_nil _ _
  simp only [mrun]
  exact firstSome_isSome _ _ hne (fun x _ => hk x _)

/-- Auxiliary for C8: the whole after-host part of the pattern (all of it
optional) always lets an always-succeeding continuation through. -/
theorem mrun_patTail_isSome (cs : List Char) (caps : Caps)
    (k : List Char → Caps → Option Caps)
    (hk : ∀ cs2 caps2, (k cs2 caps2).isSome) :
    (mrun patTail cs caps k).isSome := by
  have h1 : mrun patTail cs caps k
      = mrun (.optCls isDotChar) cs caps
          (fun cs2 caps2 =>
            mrun (.cat (.grp 3 (.starCls Char.isDigit))
              (.cat (.optCls (fun c => c == '/')) (.grp 4 (.starCls isDotChar))))
              cs2 caps2 k) := rfl
  rw [h1]
  apply mrun_optCls_isSome
  intro rest1
  have h2 : mrun (.cat (.grp 3 (.starCls Char.isDigit))
        (.cat (.optCls (fun c => c == '/')) (.grp 4 (.starCls isDotChar))))
        rest1 caps k
      = mrun (.grp 3 (.starCls Char.isDigit)) rest1 caps
          (fun cs2 caps2 =>
            mrun (.cat (.optCls (fun c => c == '/')) (.grp 4 (.starCls isDotChar)))
              cs2 caps2 k) := rfl
  rw [h2]
  apply mrun_grpStar_isSome
  intro cs2 caps2
  have h3 : mrun (.cat (.optCls (fun c => c == '/')) (.grp 4 (.starCls isDotChar)))
        cs2 caps2 k
      = mrun (.optCls (fun c => c == '/')) cs2 caps2
          (fun cs3 caps3 => mrun (.grp 4 (.starCls isDotChar)) cs3 caps3 k) := rfl
  rw [h3]
  apply mrun_optCls_isSome
  intro rest2
  apply mrun_grpStar_isSome
  intro cs3 caps3
  exact hk cs3 caps3

/-- Auxiliary for C8: the host-and-tail pattern matches whenever the input
starts with a host character and the continuation always succeeds. -/
theorem mrun_patHostTail_isSome (c : Char) (rest : List Char) (caps : Caps)
    (k : List Char → Caps → Option Caps)
    (hc : isHostChar c = true) (hk : ∀ cs2 caps2, (k cs2 caps2).isSome) :
    (mrun patHostTail (c :: rest) caps k).isSome := by
  have h1 : mrun patHostTail (c :: rest) caps k
      = if isHostChar c
        then mrun (.starCls isHostChar) rest caps
          (fun cs2 caps2 =>
            mrun patTail cs2
              ((2, String.mk ((c :: rest).take ((c :: rest).length - cs2.length))) :: caps2)
              k)
        else none := rfl
  rw [h1, if_pos hc]
  apply mrun_starCls_isSome
  intro rest2
  apply mrun_patTail_isSome
  exact hk

/-- Auxiliary for C8: the full pattern matches at any position whose first
character is a host character. -/
theorem mrun_urlPat_isSome (c : Char) (rest : List Char)
    (hc : isHostChar c = true) :
    (mrun urlPat (c :: rest) [] (fun _ caps => some caps)).isSome := by
  have h1 : mrun urlPat (c :: rest) [] (fun _ caps => some caps)
      = match mrun patProto (c :: rest) []
            (fun cs2 caps2 => mrun patHostTail cs2 caps2 (fun _ caps => some caps)) with
        | some r => some r
        | none => mrun patHostTail (c :: rest) [] (fun _ caps => some caps) := rfl
  rw [h1]
  cases hm : mrun patProto (c :: rest) []
      (fun cs2 caps2 => mrun patHostTail cs2 caps2 (fun _ caps => some caps)) with
  | some r => simp
  | none =>
    simpa using mrun_patHostTail_isSome c rest [] _ hc (fun _ _ => by simp)

/-- Auxiliary for C8: `re.search` finds a match as soon as the input has a
character outside `:/ ` (a possible host start). -/
theorem searchFrom_isSome (cs : List Char)
    (h : ∃ c ∈ cs, isHostChar c = true) : (searchFrom urlPat cs).isSome := by
  induction cs with
  | nil => simp at h
  | cons c rest ih =>
    simp only [searchFrom]
    cases hm : mrun urlPat (c :: rest) [] (fun _ caps => some caps) with
    | some caps => simp
    | none =>
      obtain ⟨x, hx, hxh⟩ := h
      rcases List.mem_cons.mp hx with hx1 | hx2
      · subst hx1
        have hs := mrun_urlPat_isSome x rest hxh
        rw [hm] at hs
        simp at hs
      · exact ih ⟨x, hx2, hxh⟩

/-- Auxiliary for C8: on the empty input the pattern has no match
(the mandatory host group needs at least one character). -/
theorem mrun_urlPat_nil :
    mrun urlPat [] [] (fun _ caps => some caps) = none := by decide

/-- Auxiliary for C8: a character in `:/ ` cannot start the literal `http`. -/
theorem listStartsWith_http_false (c : Char) (rest : List Char)
    (hc3 : c = ':' ∨ c = '/' ∨ c = ' ') :
    listStartsWith "http".data (c :: rest) = false := by
  rcases hc3 with h | h | h <;> subst h <;> simp [listStartsWith]

/-- Auxiliary for C8: no match can start at a character in `:/ ` — neither
the protocol literal nor the host class accepts it. -/
theorem mrun_urlPat_badhead (c : Char) (rest : List Char)
    (hc : isHostChar c = false) :
    mrun urlPat (c :: rest) [] (fun _ caps => some caps) = none := by
  have hc3 : c = ':' ∨ c = '/' ∨ c = ' ' := by
    have hx := hc
    simp [isHostChar] at hx
    tauto
  have hstart := listStartsWith_http_false c rest hc3
  have hproto : mrun patProto (c :: rest) []
      (fun cs2 caps2 => mrun patHostTail cs2 caps2 (fun _ caps => some caps)) = none := by
    simp only [patProto, mrun, hstart]
    simp
  have hhost : mrun patHostTail (c :: rest) [] (fun _ caps => some caps) = none := by
    have h1 : mrun patHostTail (c :: rest) [] (fun _ caps => some caps)
        = if isHostChar c
          then mrun (.starCls isHostChar) rest []
            (fun cs2 caps2 =>
              mrun patTail cs2
                ((2, String.mk ((c :: rest).take ((c :: rest).length - cs2.length))) :: caps2)
                (fun _ caps => some caps))
          else none := rfl
    rw [h1, if_neg (by simp [hc])]
  have h1 : mrun urlPat (c :: rest) [] (fun _ caps => some caps)
      = match mrun patProto (c :: rest) []
            (fun cs2 caps2 => mrun patHostTail cs2 caps2 (fun _ caps => some caps)) with
        | some r => some r
        | none => mrun patHostTail (c :: rest) [] (fun _ caps => some caps) := rfl
  rw [h1, hproto, hhost]

/-- Auxiliary for C8: when every character of the input is in `:/ `,
`re.search` finds no match at any position. -/
theorem searchFrom_none (cs : List Char)
    (h : ∀ c ∈ cs, isHostChar c = false) : searchFrom urlPat cs = none := by
  induction cs with
  | nil => simp [searchFrom, mrun_urlPat_nil]
  | cons c rest ih =>
    have hc := h c (by simp)
    simp only [searchFrom, mrun_urlPat_badhead c rest hc]
    exact ih (fun x hx => h x (by simp [hx]))

/-- C8: the URL normalizer is total over inputs containing a possible host:
it fails (Python: `m` is `None` and `m.group` raises, the conceptual
`MalformedInputError`) exactly when no host can be extracted, i.e. when
every character of the input is one of `:`, `/` or space — and produces an
output for every other input. -/
theorem get_valid_url_total_iff_host (url : String) (b : Bool) :
    get_valid_url url b = none ↔ ∀ c ∈ url.data, isHostChar c = false := by
  constructor
  · intro h
    by_contra hnot
    push_neg at hnot
    obtain ⟨c, hc, hch⟩ := hnot
    have hch2 : isHostChar c = true := by
      revert hch
      cases isHostChar c <;> simp
    have hsome := searchFrom_isSome url.data ⟨c, hc, hch2⟩
    obtain ⟨caps, hcaps⟩ := Option.isSome_iff_exists.mp hsome
    have hre : reSearch urlPat url = some caps := hcaps
    simp [get_valid_url, hre] at h
  · intro h
    have hnone : reSearch urlPat url = none := searchFrom_none url.data h
    simp [get_valid_url, hnone]

end Webmon

